import Mathlib

/-!
Shallow embedding of the retronicdesign USBJoystickAdapter v3.3 firmware core:
the ColecoVision driver (colecovision.c), the Sega Genesis driver (sega.c) and
the HID request handlers / main loop of main.c.  Machine integers are modelled
as `Nat` (with explicit masks where the C code masks) and the 16-bit `int`
wheel position as `Int`; the hardware pin reads become explicit inputs of the
update functions.
-/

/-! ## ColecoVision driver (colecovision.c) -/

/-- Spinner sensitivity, `#define MULT 32` in colecovision.c. -/
def MULT : Int := 32

/-- Quadrature Encoder Matrix, `int QEM [16]` in colecovision.c line 42. -/
def QEM : List Int := [0, 1, -1, 2, -1, 0, 2, 1, 1, 2, 0, -1, 2, -1, 1, 0]

/-- Runtime state of the ColecoVision driver: the two sampled bytes
`last_update_state[0..1]`, the two reported bytes `last_reported_state[0..1]`,
the wheel position accumulator `wheel_pos` and the current/previous 2-bit
quadrature samples `spinner` / `old_spinner`. -/
structure ColecoState where
  last_update_state0 : Nat
  last_update_state1 : Nat
  last_reported_state0 : Nat
  last_reported_state1 : Nat
  wheel_pos : Int
  spinner : Nat
  old_spinner : Nat

/-- The two clipping `if`s of colecovisionUpdate (lines 151-156):
first clip above at 255, then clip below at 0. -/
def colecoClip (w : Int) : Int :=
  let w1 := if w > 255 then 255 else w
  if w1 < 0 then 0 else w1

/-- Phase-1 sample byte, `last_update_state[0] = (PINB&0x3F)` (line 132). -/
def colecoSample0 (pinb : Nat) : Nat := pinb &&& 0x3F

/-- Phase-2 sample byte,
`last_update_state[1] = ((PINB&0x1F)|((PINC&(1<<PC2))<<3))` (line 141). -/
def colecoSample1 (pinb pinc : Nat) : Nat :=
  (pinb &&& 0x1F) ||| ((pinc &&& (1 <<< 2)) <<< 3)

/-- The 2-bit quadrature sample of colecovisionUpdate line 144:
`((~s0&(1<<PB5))>>5) | ((~s1&(1<<PB5))>>4)`.  The sample bytes are below
256, so the C complement `~` agrees with `^^^ 0xFF` on the masked bit. -/
def spinnerOf (s0 s1 : Nat) : Nat :=
  (((s0 ^^^ 0xFF) &&& (1 <<< 5)) >>> 5) ||| (((s1 ^^^ 0xFF) &&& (1 <<< 5)) >>> 4)

/-- colecovisionUpdate (lines 121-160).  `pinb1` is PINB with sub-controller 1
selected; `pinb2`, `pinc2` are PINB and PINC with sub-controller 2 selected.
The delta `QEM[spinner|(old_spinner<<2)] * MULT` is added to `wheel_pos`,
which is then clipped to [0, 255]. -/
def colecovisionUpdate (pinb1 pinb2 pinc2 : Nat) (s : ColecoState) : ColecoState :=
  let lus0 := colecoSample0 pinb1
  let lus1 := colecoSample1 pinb2 pinc2
  let sp := spinnerOf lus0 lus1
  let delta := QEM.getD (sp ||| (s.old_spinner <<< 2)) 0 * MULT
  { s with
    last_update_state0 := lus0
    last_update_state1 := lus1
    spinner := sp
    wheel_pos := colecoClip (s.wheel_pos + delta)
    old_spinner := sp }

/-- colecovisionChanged (lines 162-165): true when either sampled byte differs
from the corresponding reported byte.  The id argument is ignored. -/
def colecovisionChanged (_id : Nat) (s : ColecoState) : Bool :=
  s.last_update_state0 != s.last_reported_state0 ||
  s.last_update_state1 != s.last_reported_state1

/-- The key-pad `switch(but&0x0f)` of colecovisionBuildReport (lines 205-225):
returns the bits OR-ed into report bytes [3] and [4] for a 4-bit key code. -/
def colecoKeypad (code : Nat) : Nat × Nat :=
  if code = 0b1000 then (0b00000100, 0)
  else if code = 0b0100 then (0b00001000, 0)
  else if code = 0b1001 then (0b00010000, 0)
  else if code = 0b0111 then (0b00100000, 0)
  else if code = 0b0110 then (0b01000000, 0)
  else if code = 0b0001 then (0b10000000, 0)
  else if code = 0b1100 then (0, 0b00000001)
  else if code = 0b1110 then (0, 0b00000010)
  else if code = 0b0010 then (0, 0b00000100)
  else if code = 0b1010 then (0, 0b00001000)
  else if code = 0b0011 then (0, 0b00010000)
  else if code = 0b0101 then (0, 0b00100000)
  else if code = 0b1101 then (0, 0b01000000)
  else if code = 0b1011 then (0, 0b10000000)
  else (0, 0)

/-- Report byte [0] of colecovisionBuildReport: `x` starts at 0x80, is set to
0xFF when the active-low RIGHT bit (PB3) is pressed, then to 0x00 when LEFT
(PB2) is pressed (lines 179-182). -/
def colecoX (s : ColecoState) : Nat :=
  let tmp := s.last_update_state0 ^^^ 0xFF
  let x1 := if tmp &&& (1 <<< 3) ≠ 0 then 0xFF else (0x80 : Nat)
  if tmp &&& (1 <<< 2) ≠ 0 then 0x00 else x1

/-- Report byte [1] of colecovisionBuildReport: `y` starts at 0x80, is set to
0xFF when DOWN (PB1) is pressed, then to 0x00 when UP (PB0) is pressed
(lines 183-184). -/
def colecoY (s : ColecoState) : Nat :=
  let tmp := s.last_update_state0 ^^^ 0xFF
  let y1 := if tmp &&& (1 <<< 1) ≠ 0 then 0xFF else (0x80 : Nat)
  if tmp &&& (1 <<< 0) ≠ 0 then 0x00 else y1

/-- Report byte [3] of colecovisionBuildReport: the two fire-button bits
(lines 201-202) OR-ed with the key-pad bits for this byte. -/
def colecoButtons3 (s : ColecoState) : Nat :=
  let tmp := s.last_update_state0 ^^^ 0xFF
  let but := s.last_update_state1 ^^^ 0xFF
  let b1 := if tmp &&& (1 <<< 4) ≠ 0 then (0 : Nat) ||| 0b00000001 else 0
  let b2 := if but &&& (1 <<< 4) ≠ 0 then b1 ||| 0b00000010 else b1
  b2 ||| (colecoKeypad (but &&& 0x0F)).1

/-- Report byte [4] of colecovisionBuildReport: only the key-pad bits of this
byte (lines 205-225). -/
def colecoButtons4 (s : ColecoState) : Nat :=
  (colecoKeypad ((s.last_update_state1 ^^^ 0xFF) &&& 0x0F)).2

/-- The report bytes computed inside `if (reportBuffer)` of
colecovisionBuildReport (lines 174-227): X, Y, the wheel position cast to an
unsigned char, and the two button bytes. -/
def colecovisionReportBytes (s : ColecoState) : List Nat :=
  [colecoX s, colecoY s, (s.wheel_pos % 256).toNat, colecoButtons3 s, colecoButtons4 s]

/-- ColecoVision `REPORT_SIZE` (line 167). -/
def colecovisionReportSize : Nat := 5

/-- colecovisionBuildReport (lines 169-233): when a buffer is present the
report bytes are produced; in every case the reported state is overwritten
with the sampled state and `REPORT_SIZE` is returned. -/
def colecovisionBuildReport (hasBuffer : Bool) (_id : Nat) (s : ColecoState) :
    Option (List Nat) × ColecoState × Nat :=
  ((if hasBuffer then some (colecovisionReportBytes s) else none),
   { s with
     last_reported_state0 := s.last_update_state0
     last_reported_state1 := s.last_update_state1 },
   colecovisionReportSize)

/-- A 4-bit quadrature index `cur | (prev <<< 2)` is a double transition when
both quadrature lines change between the previous and the current sample. -/
def quadInvalid (i : Nat) : Bool := ((i >>> 2) ^^^ (i &&& 3)) == 3

/-- Iterated updates: apply colecovisionUpdate for each pin-input triple. -/
def runColecoUpdates (ins : List (Nat × Nat × Nat)) (s : ColecoState) : ColecoState :=
  ins.foldl (fun st i => colecovisionUpdate i.1 i.2.1 i.2.2 st) s

/-! ## Sega Genesis driver (sega.c) -/

/-- Runtime state of the Sega driver: the 16-bit sampled word
`last_update_state` (bit layout: MODE X Y Z START BUTA BUTC BUTB RIGHT LEFT
DOWN UP in bits 11..0), the reported word `last_reported_state` and the
3-vs-6-button discriminator `but3_6`. -/
structure SegaState where
  last_update_state : Nat
  last_reported_state : Nat
  but3_6 : Nat

/-- Pin values read during the four SELECT phases of SegaUpdate: PINB/PINC at
iteration 0 with select high, PINB/PINC at iteration 0 with select low, PINB
at iteration 1 with select low and PINB at iteration 2 with select high. -/
structure SegaPins where
  pinb_h0 : Nat
  pinc_h0 : Nat
  pinb_l0 : Nat
  pinc_l0 : Nat
  pinb_l1 : Nat
  pinb_h2 : Nat

/-- SegaUpdate (sega.c lines 77-113): the sampled word is assembled from the
four phases (`(PINB&0x1F) | ((PINC&0x04)<<3)`, then
`((PINB&(1<<PB4))<<2) | ((PINC&(1<<PC2))<<5)`, then `(PINB&0x0F)<<8`), and
`but3_6 = PINB&0x0F` is captured at iteration 1 with select low. -/
def SegaUpdate (p : SegaPins) (s : SegaState) : SegaState :=
  let st0 := (p.pinb_h0 &&& 0x1F) ||| ((p.pinc_h0 &&& 0x04) <<< 3)
  let st1 := st0 ||| (((p.pinb_l0 &&& (1 <<< 4)) <<< 2) ||| ((p.pinc_l0 &&& (1 <<< 2)) <<< 5))
  let b36 := p.pinb_l1 &&& 0x0F
  let st2 := st1 ||| ((p.pinb_h2 &&& 0x0F) <<< 8)
  { s with last_update_state := st2, but3_6 := b36 }

/-- SegaChanged (lines 116-119): true when the sampled word differs from the
reported word.  The id argument is ignored. -/
def SegaChanged (_id : Nat) (s : SegaState) : Bool :=
  s.last_update_state != s.last_reported_state

/-- Report byte [0] of SegaBuildReport: `x` starts at 0x7F, is set to 0xFF
when the active-low RIGHT bit (PB3) is pressed, then to 0x00 when LEFT (PB2)
is pressed (lines 130-135).  `tmp = ~last_update_state` on a 16-bit int. -/
def segaX (s : SegaState) : Nat :=
  let tmp := s.last_update_state ^^^ 0xFFFF
  let x1 := if tmp &&& (1 <<< 3) ≠ 0 then 0xFF else (0x7F : Nat)
  if tmp &&& (1 <<< 2) ≠ 0 then 0x00 else x1

/-- Report byte [1] of SegaBuildReport: `y` starts at 0x7F, is set to 0xFF
when DOWN (PB1) is pressed, then to 0x00 when UP (PB0) is pressed
(lines 130-137). -/
def segaY (s : SegaState) : Nat :=
  let tmp := s.last_update_state ^^^ 0xFFFF
  let y1 := if tmp &&& (1 <<< 1) ≠ 0 then 0xFF else (0x7F : Nat)
  if tmp &&& (1 <<< 0) ≠ 0 then 0x00 else y1

/-- Report byte [2] of SegaBuildReport (buttons low): BUTA (bit 6 to bit 5),
BUTB (bit 4 to bit 2), BUTC (bit 5 to bit 3), and, only when `but3_6 == 0`
(6-button pad), BUTX (bit 10 to bit 0), BUTY (bit 9 to bit 6) and MODE
(bit 11 to bit 1) — lines 143-153. -/
def segaButtonsLo (s : SegaState) : Nat :=
  let tmp := s.last_update_state ^^^ 0xFFFF
  let b1 := if tmp &&& (1 <<< 6) ≠ 0 then (0 : Nat) ||| (1 <<< 5) else 0
  let b2 := if tmp &&& (1 <<< 4) ≠ 0 then b1 ||| (1 <<< 2) else b1
  let b3 := if tmp &&& (1 <<< 5) ≠ 0 then b2 ||| (1 <<< 3) else b2
  if s.but3_6 = 0 then
    let b4 := if tmp &&& (1 <<< 10) ≠ 0 then b3 ||| (1 <<< 0) else b3
    let b5 := if tmp &&& (1 <<< 9) ≠ 0 then b4 ||| (1 <<< 6) else b4
    if tmp &&& (1 <<< 11) ≠ 0 then b5 ||| (1 <<< 1) else b5
  else b3

/-- Report byte [3] of SegaBuildReport (buttons high): START (bit 7 to
bit 1) and, only when `but3_6 == 0`, BUTZ (bit 8 to bit 0) — lines
146-153. -/
def segaButtonsHi (s : SegaState) : Nat :=
  let tmp := s.last_update_state ^^^ 0xFFFF
  let b1 := if tmp &&& (1 <<< 7) ≠ 0 then (0 : Nat) ||| (1 <<< 1) else 0
  if s.but3_6 = 0 then
    (if tmp &&& (1 <<< 8) ≠ 0 then b1 ||| (1 <<< 0) else b1)
  else b1

/-- The report bytes computed inside `if (reportBuffer)` of SegaBuildReport
(lines 128-154). -/
def segaReportBytes (s : SegaState) : List Nat :=
  [segaX s, segaY s, segaButtonsLo s, segaButtonsHi s]

/-- Sega `REPORT_SIZE` (line 121). -/
def segaReportSize : Nat := 4

/-- SegaBuildReport (lines 123-158): when a buffer is present the report
bytes are produced; in every case the reported word is overwritten with the
sampled word and `REPORT_SIZE` is returned. -/
def SegaBuildReport (hasBuffer : Bool) (_id : Nat) (s : SegaState) :
    Option (List Nat) × SegaState × Nat :=
  ((if hasBuffer then some (segaReportBytes s) else none),
   { s with last_reported_state := s.last_update_state },
   segaReportSize)

/-! ## HID request handlers and main loop (main.c) -/

/-- `#define MAX_REPORTS 8` in main.c. -/
def MAX_REPORTS : Nat := 8

/-- The USBRQ_HID_GET_IDLE branch of usbFunctionSetup (main.c lines 195-200):
for an id in 1..MAX_REPORTS it answers one byte, `idleRates[id-1]`; otherwise
it falls through and returns no data.  The idle-rate table is never written.
Result: the (unchanged) table and the data bytes of the answer. -/
def handleGetIdle (idleRates : List Nat) (id : Nat) : List Nat × List Nat :=
  if 0 < id ∧ id ≤ MAX_REPORTS then (idleRates, [idleRates.getD (id - 1) 0])
  else (idleRates, [])

/-- The USBRQ_HID_SET_IDLE branch of usbFunctionSetup (main.c lines 202-212):
id 0 sets every entry of the 8-entry table to the requested rate; an id in
1..MAX_REPORTS sets that entry; any other id changes nothing.  The handler
answers no data in all cases. -/
def handleSetIdle (idleRates : List Nat) (id rate : Nat) : List Nat × List Nat :=
  if id = 0 then (idleRates.map fun _ => rate, [])
  else if 0 < id ∧ id ≤ MAX_REPORTS then (idleRates.set (id - 1) rate, [])
  else (idleRates, [])

/-- The firmware state visible to main.c, with the active controller
driver's runtime state abstract (main.c only reaches it through the Gamepad
function pointers). -/
structure Firmware (Pad : Type) where
  jumptobootloader : Bool
  idleRates : List Nat
  idleCounters : List Nat
  reportBuffer : List Nat
  pad : Pad

/-- usbFunctionWrite (main.c lines 221-226): sets `jumptobootloader` when the
first received byte is 0x5A and returns `len`; nothing else is touched. -/
def usbFunctionWrite {Pad : Type} (fw : Firmware Pad) (data : List Nat) (len : Nat) :
    Firmware Pad × Nat :=
  (if data.getD 0 0 = 0x5A then { fw with jumptobootloader := true } else fw, len)

/-- What one main-loop iteration does about the bootloader flag. -/
inductive BootAction where
  | continueLoop : BootAction
  | enterBootloader : Nat → Nat → BootAction
  deriving DecidableEq

/-- The bootloader check at the top of the main loop (main.c lines 273-283):
when `jumptobootloader` is set, interrupts are cleared, the magic word 0xBEEF
is written at RAM address 0x013B and the loop spins until the watchdog resets
the CPU (`enterBootloader addr value` is that terminal state); otherwise the
iteration continues normally. -/
def mainBootloaderCheck (jmp : Bool) : BootAction :=
  if jmp then BootAction.enterBootloader 0x013B 0xBEEF else BootAction.continueLoop

/-- Number of set bits among the 8 bits of a report byte. -/
def bitCount (n : Nat) : Nat := (List.range 8).countP (fun i => n.testBit i)

/-! ## Theorems -/

/-- C1 (amended): every colecovisionUpdate adds `QEM[cur|(prev<<2)] * MULT` to
the wheel position (then clips); the twelve valid table entries are -1, 0 or
+1, but the four invalid double-transition codes have table entry 2, so they
add 2*MULT = 64 rather than 0. -/
theorem colecovisionUpdate_delta (s : ColecoState) (pinb1 pinb2 pinc2 : Nat) :
    ((colecovisionUpdate pinb1 pinb2 pinc2 s).wheel_pos =
      colecoClip (s.wheel_pos +
        QEM.getD
          (spinnerOf (colecoSample0 pinb1) (colecoSample1 pinb2 pinc2) |||
            (s.old_spinner <<< 2)) 0 * MULT))
    ∧ (∀ i : Fin 16,
        (quadInvalid i.val = true → QEM.getD i.val 0 = 2)
        ∧ (quadInvalid i.val = false →
            QEM.getD i.val 0 = -1 ∨ QEM.getD i.val 0 = 0 ∨ QEM.getD i.val 0 = 1)) := by
  exact ⟨rfl, by decide⟩

/-- Witness for `colecovisionUpdate_delta`: the invalid code 3 (previous
sample 0, current sample 3) has table entry 2; the valid code 1 has entry 1. -/
theorem colecovisionUpdate_delta_witness :
    QEM.getD 3 0 = 2 ∧
    (QEM.getD 1 0 = -1 ∨ QEM.getD 1 0 = 0 ∨ QEM.getD 1 0 = 1) :=
  ⟨((colecovisionUpdate_delta ⟨0, 0, 0, 0, 0, 0, 0⟩ 0 0 0).2 3).1 (by decide),
   ((colecovisionUpdate_delta ⟨0, 0, 0, 0, 0, 0, 0⟩ 0 0 0).2 1).2 (by decide)⟩

/-- C1 counterexample: with previous quadrature sample 0 and both lines now
active (current sample 3, the double-transition index 3), colecovisionUpdate
moves the wheel position from 100 to 164 — a delta of 2*MULT = 64, not the
zero delta the specification asserts for invalid codes. -/
theorem colecovisionUpdate_invalid_counterexample :
    spinnerOf (colecoSample0 0) (colecoSample1 0 0) = 3
    ∧ quadInvalid 3 = true
    ∧ (colecovisionUpdate 0 0 0
        { last_update_state0 := 0x3F, last_update_state1 := 0x3F,
          last_reported_state0 := 0, last_reported_state1 := 0,
          wheel_pos := 100, spinner := 0, old_spinner := 0 }).wheel_pos = 164
    ∧ (164 : Int) ≠ 100 := by
  refine ⟨by decide, by decide, by decide, by decide⟩

/-- The clipped wheel position always lands in [0, 255]. -/
theorem colecoClip_mem (w : Int) : 0 ≤ colecoClip w ∧ colecoClip w ≤ 255 := by
  simp only [colecoClip]
  split_ifs <;> omega

/-- C2: starting from any wheel position in [0, 255], any sequence of
colecovisionUpdate calls keeps the wheel position in [0, 255] (each update
saturates at the bounds); and starting at 250, three consecutive +1 quadrature
transitions (0 to 1 to 3 to 2), each scaled by MULT, end at exactly 255. -/
theorem coleco_wheel_clamped (ins : List (Nat × Nat × Nat)) (s : ColecoState)
    (h0 : 0 ≤ s.wheel_pos) (h1 : s.wheel_pos ≤ 255) :
    (0 ≤ (runColecoUpdates ins s).wheel_pos
      ∧ (runColecoUpdates ins s).wheel_pos ≤ 255)
    ∧ (runColecoUpdates [(0, 0, 4), (0, 0, 0), (32, 0, 0)]
        { last_update_state0 := 0x3F, last_update_state1 := 0x3F,
          last_reported_state0 := 0, last_reported_state1 := 0,
          wheel_pos := 250, spinner := 0, old_spinner := 0 }).wheel_pos = 255 := by
  constructor
  · induction ins generalizing s with
    | nil => exact ⟨h0, h1⟩
    | cons a t ih =>
        have hstep := colecoClip_mem (s.wheel_pos +
          QEM.getD
            (spinnerOf (colecoSample0 a.1) (colecoSample1 a.2.1 a.2.2) |||
              (s.old_spinner <<< 2)) 0 * MULT)
        exact ih (colecovisionUpdate a.1 a.2.1 a.2.2 s) hstep.1 hstep.2
  · decide

/-- Witness for `coleco_wheel_clamped`: the empty update sequence from the
mid-scale initial position 128. -/
theorem coleco_wheel_clamped_witness :
    ((0 ≤ (runColecoUpdates []
        { last_update_state0 := 0, last_update_state1 := 0,
          last_reported_state0 := 0, last_reported_state1 := 0,
          wheel_pos := 128, spinner := 0, old_spinner := 0 }).wheel_pos
      ∧ (runColecoUpdates []
        { last_update_state0 := 0, last_update_state1 := 0,
          last_reported_state0 := 0, last_reported_state1 := 0,
          wheel_pos := 128, spinner := 0, old_spinner := 0 }).wheel_pos ≤ 255)
     ∧ (runColecoUpdates [(0, 0, 4), (0, 0, 0), (32, 0, 0)]
        { last_update_state0 := 0x3F, last_update_state1 := 0x3F,
          last_reported_state0 := 0, last_reported_state1 := 0,
          wheel_pos := 250, spinner := 0, old_spinner := 0 }).wheel_pos = 255) :=
  coleco_wheel_clamped []
    { last_update_state0 := 0, last_update_state1 := 0,
      last_reported_state0 := 0, last_reported_state1 := 0,
      wheel_pos := 128, spinner := 0, old_spinner := 0 }
    (by decide) (by decide)

/-- C3: for both drivers, `changed` is false immediately after any
buildReport call (null or non-null buffer) while the sampled state is
unchanged, and true after any update whose new sample differs from the
last-reported state in at least one bit. -/
theorem changed_buildReport_update :
    (∀ (s : SegaState) (hb : Bool) (id id2 : Nat),
      SegaChanged id2 (SegaBuildReport hb id s).2.1 = false)
    ∧ (∀ (s : SegaState) (p : SegaPins) (id : Nat),
        (SegaUpdate p s).last_update_state ≠ s.last_reported_state →
        SegaChanged id (SegaUpdate p s) = true)
    ∧ (∀ (s : ColecoState) (hb : Bool) (id id2 : Nat),
      colecovisionChanged id2 (colecovisionBuildReport hb id s).2.1 = false)
    ∧ (∀ (s : ColecoState) (p1 p2 pc id : Nat),
        ((colecovisionUpdate p1 p2 pc s).last_update_state0 ≠ s.last_reported_state0
          ∨ (colecovisionUpdate p1 p2 pc s).last_update_state1 ≠ s.last_reported_state1) →
        colecovisionChanged id (colecovisionUpdate p1 p2 pc s) = true) := by
  refine ⟨?_, ?_, ?_, ?_⟩
  · intro s hb id id2
    simp [SegaChanged, SegaBuildReport]
  · intro s p id h
    simpa [SegaChanged, SegaUpdate, bne_iff_ne] using h
  · intro s hb id id2
    simp [colecovisionChanged, colecovisionBuildReport]
  · intro s p1 p2 pc id h
    simp only [colecovisionChanged, Bool.or_eq_true, bne_iff_ne]
    rcases h with h | h
    · exact Or.inl h
    · exact Or.inr h

/-- Witness for `changed_buildReport_update`: an all-zero sample against a
previously reported state 1 makes `changed` true after the update, for both
drivers. -/
theorem changed_buildReport_update_witness :
    SegaChanged 1 (SegaUpdate ⟨0, 0, 0, 0, 0, 0⟩
      { last_update_state := 0, last_reported_state := 1, but3_6 := 0 }) = true
    ∧ colecovisionChanged 1 (colecovisionUpdate 0 0 0
      { last_update_state0 := 0, last_update_state1 := 0,
        last_reported_state0 := 1, last_reported_state1 := 0,
        wheel_pos := 128, spinner := 0, old_spinner := 0 }) = true :=
  ⟨changed_buildReport_update.2.1
      { last_update_state := 0, last_reported_state := 1, but3_6 := 0 }
      ⟨0, 0, 0, 0, 0, 0⟩ 1 (by decide),
   changed_buildReport_update.2.2.2
      { last_update_state0 := 0, last_update_state1 := 0,
        last_reported_state0 := 1, last_reported_state1 := 0,
        wheel_pos := 128, spinner := 0, old_spinner := 0 }
      0 0 0 1 (Or.inl (by decide))⟩

/-- C4: for every state, id and buffer argument, buildReport copies the
sampled state into the reported state and returns the report length (4 for
Sega, 5 for ColecoVision); with a null buffer no bytes are produced but the
state side effect and the return value are the same as with a buffer. -/
theorem buildReport_ack_length :
    (∀ (s : SegaState) (id : Nat) (hb : Bool),
      (SegaBuildReport hb id s).2.1.last_reported_state = s.last_update_state
      ∧ (SegaBuildReport hb id s).2.2 = 4
      ∧ (SegaBuildReport false id s).1 = none
      ∧ (SegaBuildReport false id s).2 = (SegaBuildReport true id s).2)
    ∧ (∀ (s : ColecoState) (id : Nat) (hb : Bool),
      (colecovisionBuildReport hb id s).2.1.last_reported_state0 = s.last_update_state0
      ∧ (colecovisionBuildReport hb id s).2.1.last_reported_state1 = s.last_update_state1
      ∧ (colecovisionBuildReport hb id s).2.2 = 5
      ∧ (colecovisionBuildReport false id s).1 = none
      ∧ (colecovisionBuildReport false id s).2 = (colecovisionBuildReport true id s).2) :=
  ⟨fun _ _ _ => ⟨rfl, rfl, rfl, rfl⟩, fun _ _ _ => ⟨rfl, rfl, rfl, rfl, rfl⟩⟩

set_option maxHeartbeats 3200000 in
/-- C5: when the discriminator `but3_6` stored at update time is non-zero
(3-button pad) the built report has the X (bit 0 of byte [2]), Y (bit 6 of
byte [2]), Mode (bit 1 of byte [2]) and Z (bit 0 of byte [3]) button bits all
clear, whatever the raw bits 8-11 of the sampled word are; when it is zero
(6-button pad) each of those report bits equals the corresponding active-low
raw bit. -/
theorem sega_3v6_suppression (s : SegaState) :
    (s.but3_6 ≠ 0 →
      segaButtonsLo s &&& 0b01000011 = 0 ∧ segaButtonsHi s &&& 0b00000001 = 0)
    ∧ (s.but3_6 = 0 →
      ((segaButtonsLo s &&& (1 <<< 0) ≠ 0 ↔
        (s.last_update_state ^^^ 0xFFFF) &&& (1 <<< 10) ≠ 0)
      ∧ (segaButtonsLo s &&& (1 <<< 6) ≠ 0 ↔
        (s.last_update_state ^^^ 0xFFFF) &&& (1 <<< 9) ≠ 0)
      ∧ (segaButtonsLo s &&& (1 <<< 1) ≠ 0 ↔
        (s.last_update_state ^^^ 0xFFFF) &&& (1 <<< 11) ≠ 0)
      ∧ (segaButtonsHi s &&& (1 <<< 0) ≠ 0 ↔
        (s.last_update_state ^^^ 0xFFFF) &&& (1 <<< 8) ≠ 0))) := by
  constructor
  · intro h
    simp only [segaButtonsLo, segaButtonsHi, if_neg h]
    constructor <;> split_ifs <;> decide
  · intro h
    simp only [segaButtonsLo, segaButtonsHi, if_pos h]
    refine ⟨?_, ?_, ?_, ?_⟩ <;> split_ifs <;> simp_all <;> decide

/-- Witness for `sega_3v6_suppression`: an all-buttons-active sample (word 0)
with discriminator 1 suppresses the extra buttons; with discriminator 0 the
four extra report bits follow the raw bits. -/
theorem sega_3v6_suppression_witness :
    (segaButtonsLo { last_update_state := 0, last_reported_state := 0, but3_6 := 1 }
        &&& 0b01000011 = 0
      ∧ segaButtonsHi { last_update_state := 0, last_reported_state := 0, but3_6 := 1 }
        &&& 0b00000001 = 0)
    ∧ ((segaButtonsLo { last_update_state := 0, last_reported_state := 0, but3_6 := 0 }
          &&& (1 <<< 0) ≠ 0 ↔ (0 ^^^ 0xFFFF) &&& (1 <<< 10) ≠ 0)
      ∧ (segaButtonsLo { last_update_state := 0, last_reported_state := 0, but3_6 := 0 }
          &&& (1 <<< 6) ≠ 0 ↔ (0 ^^^ 0xFFFF) &&& (1 <<< 9) ≠ 0)
      ∧ (segaButtonsLo { last_update_state := 0, last_reported_state := 0, but3_6 := 0 }
          &&& (1 <<< 1) ≠ 0 ↔ (0 ^^^ 0xFFFF) &&& (1 <<< 11) ≠ 0)
      ∧ (segaButtonsHi { last_update_state := 0, last_reported_state := 0, but3_6 := 0 }
          &&& (1 <<< 0) ≠ 0 ↔ (0 ^^^ 0xFFFF) &&& (1 <<< 8) ≠ 0)) :=
  ⟨(sega_3v6_suppression
      { last_update_state := 0, last_reported_state := 0, but3_6 := 1 }).1 (by decide),
   (sega_3v6_suppression
      { last_update_state := 0, last_reported_state := 0, but3_6 := 0 }).2 (by decide)⟩

/-- C6: with the sampled word showing only RIGHT active (bit 3 low, bits 0-11
otherwise high, upper bits clear as SegaUpdate leaves them) the Sega report is
exactly [0xFF, 0x7F, 0x00, 0x00], for any discriminator and reported state. -/
theorem sega_right_only_report (b36 lrs : Nat) :
    segaReportBytes
        { last_update_state := 0x0FF7, last_reported_state := lrs, but3_6 := b36 }
      = [0xFF, 0x7F, 0x00, 0x00] := by
  cases b36 with
  | zero =>
      show segaReportBytes
          { last_update_state := 0x0FF7, last_reported_state := 0, but3_6 := 0 }
        = [0xFF, 0x7F, 0x00, 0x00]
      decide
  | succ k =>
      show segaReportBytes
          { last_update_state := 0x0FF7, last_reported_state := 0, but3_6 := 1 }
        = [0xFF, 0x7F, 0x00, 0x00]
      decide

/-- C7: of the 16 possible 4-bit key codes, the 14 defined ones (the 12
key-pad keys plus the purple and blue fire buttons) each set exactly one bit
across report bytes [3] and [4] and no two codes set the same bit; the
undefined codes 0 and 15 set no bit; and key code 0b1000 pressed alone yields
byte [3] = 0b00000100 and byte [4] = 0. -/
theorem coleco_keypad_decode :
    (∀ c : Fin 16, c.val ≠ 0 ∧ c.val ≠ 15 →
      bitCount (colecoKeypad c.val).1 + bitCount (colecoKeypad c.val).2 = 1)
    ∧ (∀ c d : Fin 16, c.val ≠ 0 ∧ c.val ≠ 15 ∧ d.val ≠ 0 ∧ d.val ≠ 15 ∧ c ≠ d →
      colecoKeypad c.val ≠ colecoKeypad d.val)
    ∧ colecoKeypad 0 = (0, 0) ∧ colecoKeypad 15 = (0, 0)
    ∧ (colecovisionReportBytes
        { last_update_state0 := 0x3F, last_update_state1 := 0x37,
          last_reported_state0 := 0, last_reported_state1 := 0,
          wheel_pos := 0x80, spinner := 0, old_spinner := 0 }).getD 3 0 = 0b00000100
    ∧ (colecovisionReportBytes
        { last_update_state0 := 0x3F, last_update_state1 := 0x37,
          last_reported_state0 := 0, last_reported_state1 := 0,
          wheel_pos := 0x80, spinner := 0, old_spinner := 0 }).getD 4 0 = 0 :=
  ⟨by decide, by decide, by decide, by decide, by decide, by decide⟩

/-- Witness for `coleco_keypad_decode`: key code 8 sets exactly one bit, and
codes 8 and 4 set different bits. -/
theorem coleco_keypad_decode_witness :
    bitCount (colecoKeypad (8 : Fin 16).val).1 + bitCount (colecoKeypad (8 : Fin 16).val).2 = 1
    ∧ colecoKeypad (8 : Fin 16).val ≠ colecoKeypad (4 : Fin 16).val :=
  ⟨coleco_keypad_decode.1 8 (by decide),
   coleco_keypad_decode.2.1 8 4 (by decide)⟩

/-- C8: a GET_IDLE or SET_IDLE request whose report id exceeds MAX_REPORTS
(and a GET_IDLE with report id 0) leaves the idle-rate table unchanged and
answers zero data bytes. -/
theorem idle_out_of_range (t : List Nat) (id rate : Nat) (h : MAX_REPORTS < id) :
    handleGetIdle t id = (t, [])
    ∧ handleSetIdle t id rate = (t, [])
    ∧ handleGetIdle t 0 = (t, []) := by
  have hc : ¬(0 < id ∧ id ≤ MAX_REPORTS) := fun hx =>
    absurd (lt_of_lt_of_le h hx.2) (lt_irrefl _)
  have h0 : id ≠ 0 := by
    intro hx
    rw [hx] at h
    exact absurd h (by decide)
  refine ⟨?_, ?_, ?_⟩
  · simp [handleGetIdle, hc]
  · simp [handleSetIdle, h0, hc]
  · simp [handleGetIdle]

/-- Witness for `idle_out_of_range`: report id 9 on an 8-entry table. -/
theorem idle_out_of_range_witness :
    handleGetIdle [1, 2, 3, 4, 5, 6, 7, 8] 9 = ([1, 2, 3, 4, 5, 6, 7, 8], [])
    ∧ handleSetIdle [1, 2, 3, 4, 5, 6, 7, 8] 9 7 = ([1, 2, 3, 4, 5, 6, 7, 8], [])
    ∧ handleGetIdle [1, 2, 3, 4, 5, 6, 7, 8] 0 = ([1, 2, 3, 4, 5, 6, 7, 8], []) :=
  idle_out_of_range [1, 2, 3, 4, 5, 6, 7, 8] 9 7 (by decide)

/-- C9: usbFunctionWrite raises the bootloader-jump flag exactly when the
first received byte is the magic 0x5A, touches no other firmware state (idle
tables, report buffer, pad state) and returns `len`; and the main loop's
bootloader check on a raised flag writes the sentinel 0xBEEF at RAM address
0x013B and enters the terminal spin, while a clear flag continues normally. -/
theorem write_bootloader_magic {Pad : Type} (fw : Firmware Pad) (data : List Nat) (len : Nat) :
    (usbFunctionWrite fw data len).1.jumptobootloader
      = (decide (data.getD 0 0 = 0x5A) || fw.jumptobootloader)
    ∧ ((usbFunctionWrite { fw with jumptobootloader := false } data len).1.jumptobootloader = true
        ↔ data.getD 0 0 = 0x5A)
    ∧ (usbFunctionWrite fw data len).1.idleRates = fw.idleRates
    ∧ (usbFunctionWrite fw data len).1.idleCounters = fw.idleCounters
    ∧ (usbFunctionWrite fw data len).1.reportBuffer = fw.reportBuffer
    ∧ (usbFunctionWrite fw data len).1.pad = fw.pad
    ∧ (usbFunctionWrite fw data len).2 = len
    ∧ mainBootloaderCheck true = BootAction.enterBootloader 0x013B 0xBEEF
    ∧ mainBootloaderCheck false = BootAction.continueLoop := by
  unfold usbFunctionWrite mainBootloaderCheck
  split_ifs with h <;> simp_all

/-- C10: when both opposing direction bits of one axis are active (low) in
the sampled state, the axis minimum wins in both drivers: LEFT together with
RIGHT gives X byte 0x00, and UP together with DOWN gives Y byte 0x00. -/
theorem opposing_directions_minimum :
    (∀ s : SegaState,
      ((s.last_update_state ^^^ 0xFFFF) &&& (1 <<< 2) ≠ 0 →
        (s.last_update_state ^^^ 0xFFFF) &&& (1 <<< 3) ≠ 0 → segaX s = 0)
      ∧ ((s.last_update_state ^^^ 0xFFFF) &&& (1 <<< 0) ≠ 0 →
          (s.last_update_state ^^^ 0xFFFF) &&& (1 <<< 1) ≠ 0 → segaY s = 0))
    ∧ (∀ s : ColecoState,
      ((s.last_update_state0 ^^^ 0xFF) &&& (1 <<< 2) ≠ 0 →
        (s.last_update_state0 ^^^ 0xFF) &&& (1 <<< 3) ≠ 0 → colecoX s = 0)
      ∧ ((s.last_update_state0 ^^^ 0xFF) &&& (1 <<< 0) ≠ 0 →
          (s.last_update_state0 ^^^ 0xFF) &&& (1 <<< 1) ≠ 0 → colecoY s = 0)) := by
  refine ⟨fun s => ⟨fun hl _ => ?_, fun hu _ => ?_⟩,
          fun s => ⟨fun hl _ => ?_, fun hu _ => ?_⟩⟩
  · simp only [segaX]
    rw [if_pos hl]
  · simp only [segaY]
    rw [if_pos hu]
  · simp only [colecoX]
    rw [if_pos hl]
  · simp only [colecoY]
    rw [if_pos hu]

/-- Witness for `opposing_directions_minimum`: samples with all four
direction bits active at once. -/
theorem opposing_directions_minimum_witness :
    segaX { last_update_state := 0xFFF0, last_reported_state := 0, but3_6 := 0 } = 0
    ∧ segaY { last_update_state := 0xFFF0, last_reported_state := 0, but3_6 := 0 } = 0
    ∧ colecoX
        { last_update_state0 := 0xF0, last_update_state1 := 0,
          last_reported_state0 := 0, last_reported_state1 := 0,
          wheel_pos := 128, spinner := 0, old_spinner := 0 } = 0
    ∧ colecoY
        { last_update_state0 := 0xF0, last_update_state1 := 0,
          last_reported_state0 := 0, last_reported_state1 := 0,
          wheel_pos := 128, spinner := 0, old_spinner := 0 } = 0 :=
  ⟨(opposing_directions_minimum.1
      { last_update_state := 0xFFF0, last_reported_state := 0, but3_6 := 0 }).1
      (by decide) (by decide),
   (opposing_directions_minimum.1
      { last_update_state := 0xFFF0, last_reported_state := 0, but3_6 := 0 }).2
      (by decide) (by decide),
   (opposing_directions_minimum.2
      { last_update_state0 := 0xF0, last_update_state1 := 0,
        last_reported_state0 := 0, last_reported_state1 := 0,
        wheel_pos := 128, spinner := 0, old_spinner := 0 }).1
      (by decide) (by decide),
   (opposing_directions_minimum.2
      { last_update_state0 := 0xF0, last_update_state1 := 0,
        last_reported_state0 := 0, last_reported_state1 := 0,
        wheel_pos := 128, spinner := 0, old_spinner := 0 }).2
      (by decide) (by decide)⟩
